import Mathlib

/-!
Verification development for the marketing-campaign workflow repository.

The development shallowly embeds the repository source:
  - `src/streamlit-app-template/datasource.py` (DataSource providers),
  - `src/streamlit-app-template/config.py` (provider selection),
  - `src/streamlit-app/utils.py` (demo data provider, normalize_brief,
    bounded-time compliance read),
  - `src/streamlit-app/app.py` (approval workflow state machine).

Python dictionaries are embedded as ordered association lists over an
explicit Python-value type; Python truthiness, `or`-chains and `str()`
are embedded explicitly.  Fallible operations return `Except`, so that
"the operation never propagates an exception" is a statement about the
returned constructor.
-/

/-- Scalar Python values occurring in the modelled code: None, str, int
and bool.  Numeric database values are modelled as integers; no claim
performs float arithmetic, so float-typed columns are carried by the
same numeric constructor. -/
inductive SV where
  | none
  | str (s : String)
  | int (n : Int)
  | bool (b : Bool)
deriving DecidableEq, Repr

/-- Python values assignable to a row or session field: a scalar, a
(flat) list of scalars, or a utf-8 decodable bytes value carried by its
decoded text. -/
inductive PV where
  | scalar (v : SV)
  | list (xs : List SV)
  | bytes (s : String)
deriving DecidableEq, Repr

/-- Shorthand for a Python string value. -/
def PV.s (x : String) : PV := .scalar (.str x)

/-- Shorthand for the Python None value. -/
def PV.n : PV := .scalar .none

/-- A Python dict with string keys, in insertion order. -/
def PDict : Type := List (String × PV)

instance : DecidableEq PDict := by
  unfold PDict
  infer_instance

instance : Repr PDict := by
  unfold PDict
  infer_instance

/-- Ordered-dict lookup, returning the stored value when the key is
present. -/
def dictGet {α : Type} (d : List (String × α)) (k : String) : Option α :=
  match d with
  | [] => Option.none
  | (k2, v) :: rest => if k = k2 then some v else dictGet rest k

/-- Ordered-dict assignment: overwrite in place when the key is present,
append otherwise (Python dict insertion-order semantics). -/
def dictSet {α : Type} (d : List (String × α)) (k : String) (v : α) :
    List (String × α) :=
  match d with
  | [] => [(k, v)]
  | (k2, v2) :: rest =>
    if k = k2 then (k2, v) :: rest else (k2, v2) :: dictSet rest k v

/-- Embeds Python `d.get(k)`: the value when present, None otherwise. -/
def pyGet (d : PDict) (k : String) : PV :=
  (dictGet d k).getD PV.n

/-- Python truthiness of a scalar. -/
def SV.truthy : SV → Bool
  | .none => false
  | .str s => if s = "" then false else true
  | .int n => if n = 0 then false else true
  | .bool b => b

/-- Python truthiness of a value. -/
def PV.truthy : PV → Bool
  | .scalar v => v.truthy
  | .list xs => if xs = [] then false else true
  | .bytes s => if s = "" then false else true

/-- Embeds the Python expression `a or b`. -/
def pyOr (a b : PV) : PV := if a.truthy then a else b

/-- Embeds Python `str(v)` on a scalar. -/
def SV.pyStr : SV → String
  | .none => "None"
  | .str s => s
  | .int n => toString n
  | .bool b => if b then "True" else "False"

/-- Embeds Python `repr(v)` on a scalar (for strings without embedded
quotes, as produced when a list value is converted by `str()`). -/
def svRepr : SV → String
  | .str s => String.singleton (Char.ofNat 39) ++ s ++ String.singleton (Char.ofNat 39)
  | v => v.pyStr

/-- Embeds Python `str(v)` on a value; `str` of a list prints the
bracketed comma-separated reprs of its elements. -/
def PV.pyStr : PV → String
  | .scalar v => v.pyStr
  | .list xs => "[" ++ String.intercalate ", " (xs.map svRepr) ++ "]"
  | .bytes s => s

/-- Lower-cases an ASCII character (embeds `str.lower` per character). -/
def charLower (c : Char) : Char :=
  if 'A' ≤ c ∧ c ≤ 'Z' then Char.ofNat (c.toNat + 32) else c

/-- Embeds Python `s.lower()` for ASCII strings (kernel-computable). -/
def sLower (s : String) : String := ⟨s.data.map charLower⟩

/-- ASCII whitespace test used by the embedded `strip`/`split`. -/
def isWs (c : Char) : Bool := c = ' ' ∨ c = '\t' ∨ c = '\n' ∨ c = '\r'

/-- Embeds Python `s.strip()` (kernel-computable). -/
def sTrim (s : String) : String :=
  ⟨((s.data.dropWhile isWs).reverse.dropWhile isWs).reverse⟩

/-- Helper for `sSplit`: accumulates the current chunk in reverse. -/
def splitAux (sep : Char) : List Char → List Char → List String
  | [], acc => [⟨acc.reverse⟩]
  | c :: rest, acc =>
    if c = sep then ⟨acc.reverse⟩ :: splitAux sep rest []
    else splitAux sep rest (c :: acc)

/-- Embeds Python `s.split(sep)` for a one-character separator
(kernel-computable). -/
def sSplit (s : String) (sep : Char) : List String := splitAux sep s.data []

/-- Embeds Python `sep in s` for a one-character needle. -/
def sContains (s : String) (c : Char) : Bool := s.data.contains c

/-- Embeds Python `s.startswith(c)` for a one-character needle. -/
def sStartsWithChar (s : String) (c : Char) : Bool :=
  match s.data with
  | [] => false
  | d :: _ => d = c

/-!
JSON model.  `datasource._as_list` calls `json.loads` on strings that
look list- or object-shaped; the parser below embeds the fragment of
`json.loads` relevant to that call: values are null, booleans, numbers
(carried by their lexeme), strings with the common escapes, arrays and
objects, and trailing garbage after the top-level value is a parse
failure (Python raises `JSONDecodeError`, which `_as_list` swallows).
-/

/-- JSON values as produced by the embedded `json.loads`. -/
inductive JVal where
  | null
  | bool (b : Bool)
  | num (lex : String)
  | str (s : String)
  | arr (xs : List JVal)
  | obj (fs : List (String × JVal))

/-- Drops leading JSON whitespace. -/
def jSkipWs (cs : List Char) : List Char :=
  cs.dropWhile (fun c => c = ' ' ∨ c = '\t' ∨ c = '\n' ∨ c = '\r')

/-- Decodes one escape character of a JSON string. -/
def jEscape (c : Char) : Option Char :=
  if c = '"' then some '"'
  else if c = '\\' then some '\\'
  else if c = '/' then some '/'
  else if c = 'n' then some '\n'
  else if c = 't' then some '\t'
  else if c = 'r' then some '\r'
  else if c = 'b' then some (Char.ofNat 8)
  else if c = 'f' then some (Char.ofNat 12)
  else Option.none

/-- Parses the body of a JSON string after the opening quote, returning
the decoded text and the remaining input. -/
def jParseStr : Nat → List Char → Option (List Char × List Char)
  | 0, _ => Option.none
  | _ + 1, [] => Option.none
  | f + 1, c :: rest =>
    if c = '"' then some ([], rest)
    else if c = '\\' then
      match rest with
      | [] => Option.none
      | e :: rest2 =>
        match jEscape e with
        | Option.none => Option.none
        | some dc =>
          match jParseStr f rest2 with
          | Option.none => Option.none
          | some (tail, rem) => some (dc :: tail, rem)
    else
      match jParseStr f rest with
      | Option.none => Option.none
      | some (tail, rem) => some (c :: tail, rem)

/-- Character class of a JSON number lexeme. -/
def jNumChar (c : Char) : Bool :=
  c.isDigit ∨ c = '-' ∨ c = '+' ∨ c = '.' ∨ c = 'e' ∨ c = 'E'

mutual

/-- Parses one JSON value; fuel bounds the recursion. -/
def jParseVal : Nat → List Char → Option (JVal × List Char)
  | 0, _ => Option.none
  | f + 1, cs =>
    match jSkipWs cs with
    | [] => Option.none
    | c :: rest =>
      if c = '[' then
        match jSkipWs rest with
        | ']' :: rem => some (.arr [], rem)
        | _ => match jParseArrItems f rest with
               | Option.none => Option.none
               | some (xs, rem) => some (.arr xs, rem)
      else if c = '\x7b' then
        match jSkipWs rest with
        | '\x7d' :: rem => some (.obj [], rem)
        | _ => match jParseObjItems f rest with
               | Option.none => Option.none
               | some (fs, rem) => some (.obj fs, rem)
      else if c = '"' then
        match jParseStr (f + 1) rest with
        | Option.none => Option.none
        | some (body, rem) => some (.str ⟨body⟩, rem)
      else if (c :: rest).take 4 = ['t', 'r', 'u', 'e'] then
        some (.bool true, (c :: rest).drop 4)
      else if (c :: rest).take 5 = ['f', 'a', 'l', 's', 'e'] then
        some (.bool false, (c :: rest).drop 5)
      else if (c :: rest).take 4 = ['n', 'u', 'l', 'l'] then
        some (.null, (c :: rest).drop 4)
      else if c.isDigit ∨ c = '-' then
        let lex := (c :: rest).takeWhile jNumChar
        some (.num ⟨lex⟩, (c :: rest).dropWhile jNumChar)
      else Option.none

/-- Parses the items of a JSON array after the opening bracket. -/
def jParseArrItems : Nat → List Char → Option (List JVal × List Char)
  | 0, _ => Option.none
  | f + 1, cs =>
    match jParseVal f cs with
    | Option.none => Option.none
    | some (v, rem) =>
      match jSkipWs rem with
      | ',' :: rem2 =>
        match jParseArrItems f rem2 with
        | Option.none => Option.none
        | some (vs, rem3) => some (v :: vs, rem3)
      | ']' :: rem2 => some ([v], rem2)
      | _ => Option.none

/-- Parses the members of a JSON object after the opening brace. -/
def jParseObjItems : Nat → List Char → Option (List (String × JVal) × List Char)
  | 0, _ => Option.none
  | f + 1, cs =>
    match jSkipWs cs with
    | '"' :: rest =>
      match jParseStr (f + 1) rest with
      | Option.none => Option.none
      | some (key, rem) =>
        match jSkipWs rem with
        | ':' :: rem2 =>
          match jParseVal f rem2 with
          | Option.none => Option.none
          | some (v, rem3) =>
            match jSkipWs rem3 with
            | ',' :: rem4 =>
              match jParseObjItems f rem4 with
              | Option.none => Option.none
              | some (fs, rem5) => some ((⟨key⟩, v) :: fs, rem5)
            | '\x7d' :: rem4 => some ([(⟨key⟩, v)], rem4)
            | _ => Option.none
        | _ => Option.none
    | _ => Option.none

end

/-- Embeds `json.loads(s)`: parse one value, then require only
whitespace to remain. -/
def jsonLoads (s : String) : Option JVal :=
  match jParseVal ((s.length + 1) * 4) s.data with
  | Option.none => Option.none
  | some (v, rem) => if jSkipWs rem = [] then some v else Option.none

mutual

/-- Embeds Python `str(v)` on a decoded JSON value.  Numbers are
rendered by their lexeme. -/
def jStr : Nat → JVal → String
  | _, .null => "None"
  | _, .bool b => if b then "True" else "False"
  | _, .num lex => lex
  | _, .str s => s
  | 0, .arr _ => ""
  | 0, .obj _ => ""
  | f + 1, .arr xs => "[" ++ String.intercalate ", " (xs.map (jRepr f)) ++ "]"
  | f + 1, .obj fs =>
    "\x7b" ++ String.intercalate ", "
      (fs.map (fun kv => jRepr f (.str kv.1) ++ ": " ++ jRepr f kv.2)) ++ "\x7d"

/-- Embeds Python `repr(v)` on a decoded JSON value, as used for list
and dict elements by `str()`. -/
def jRepr : Nat → JVal → String
  | _, .null => "None"
  | _, .bool b => if b then "True" else "False"
  | _, .num lex => lex
  | _, .str s =>
    String.singleton (Char.ofNat 39) ++ s ++ String.singleton (Char.ofNat 39)
  | 0, .arr _ => ""
  | 0, .obj _ => ""
  | f + 1, .arr xs => "[" ++ String.intercalate ", " (xs.map (jRepr f)) ++ "]"
  | f + 1, .obj fs =>
    "\x7b" ++ String.intercalate ", "
      (fs.map (fun kv => jRepr f (.str kv.1) ++ ": " ++ jRepr f kv.2)) ++ "\x7d"

end

/-!
Embedding of `src/streamlit-app-template/datasource.py`.

The transport (databricks connection, cursor, fetch loop) is modelled
by an outcome value: the import of the shared helpers can fail, the
connection can be absent, the query/fetch can raise, or it yields a
list of rows (each row the column-name dictionary built from the cursor
description).  Every Python `try`/`except` boundary of the source is
reflected in how outcomes map to results, and each operation returns
`Except PyExn` so that a propagated exception is visible in the type.
-/

/-- Exceptions that escape a DataSource operation. -/
inductive PyExn where
  | notImplementedError (msg : String)
deriving DecidableEq, Repr

/-- Outcome of the warehouse transport underlying `list_campaigns`. -/
inductive QueryOutcome where
  | importFailure
  | noConn
  | raised
  | rows (rs : List PDict)
deriving Repr

/-- Embeds the helper `_as_list` defined inside
`PlaceholderDataSource.list_campaigns`: comma-split fallback shared by
the string branches. -/
def _as_list_comma (s : String) : List String :=
  if sContains s ',' then ((sSplit s ',').map sTrim).filter (fun p => ¬(p = ""))
  else if ¬(sTrim s = "") then [sTrim s] else []

/-- Embeds the string branch of `_as_list`: JSON decoding is attempted
first when the stripped value starts with a bracket or brace, then
comma-splitting, then a single-element list. -/
def _as_list_str (s : String) : List String :=
  let s_strip := sTrim s
  if sStartsWithChar s_strip '[' ∨ sStartsWithChar s_strip '\x7b' then
    match jsonLoads s_strip with
    | some (JVal.arr xs) => xs.map (jStr s_strip.length)
    | some (JVal.obj fs) => fs.map (fun kv => jStr s_strip.length kv.2)
    | _ => _as_list_comma s
  else _as_list_comma s

/-- Embeds `_as_list(val)`: None maps to the empty list, a native list
maps to the stringified elements, bytes are utf-8 decoded and other
scalars stringified before the string normalization runs. -/
def _as_list (val : PV) : List String :=
  match val with
  | .scalar .none => []
  | .list xs => xs.map SV.pyStr
  | .bytes b => _as_list_str b
  | v => _as_list_str v.pyStr

/-- The campaign dictionary shape produced by
`PlaceholderDataSource.list_campaigns` (string fields are passed
through `str()` by the source; optional passthrough fields stay raw). -/
structure CampaignRec where
  brief_id : String
  brief_title : String
  campaign_name : String
  campaign_type : String
  lifecycle_stage : PV
  medical_constraints : List String
  legal_requirements : List String
  seed_image_path : PV
  generated_image_path : PV
  expert_prompt : PV
deriving DecidableEq, Repr

/-- Embeds the per-row mapping of `list_campaigns` (lines 160-209 of
`datasource.py`): alias chains via Python `or`, skip of rows whose
identifier chain ends in None, `str()` conversions, and `_as_list`
normalization of the two list-valued fields. -/
def mapCampaignRow (r : PDict) : Option CampaignRec :=
  let bid := pyOr (pyGet r "brief_id")
    (pyOr (pyGet r "id") (pyOr (pyGet r "brief_key") (pyGet r "campaign_id")))
  if bid = PV.n then Option.none
  else
    let btitle := pyOr (pyGet r "brief_title")
      (pyOr (pyGet r "title") (pyOr (pyGet r "name")
        (pyOr (pyGet r "campaign_name") (PV.s bid.pyStr))))
    let cname := pyOr (pyGet r "campaign_name")
      (pyOr (pyGet r "campaign_title") (pyOr (pyGet r "name") btitle))
    let ctype := pyOr (pyGet r "type")
      (pyOr (pyGet r "campaign_type") (PV.s "Awareness"))
    let lifecycle := pyOr (pyGet r "lifecycle_stage")
      (pyOr (pyGet r "lifecycle") PV.n)
    some
      { brief_id := bid.pyStr
        brief_title := btitle.pyStr
        campaign_name := cname.pyStr
        campaign_type := ctype.pyStr
        lifecycle_stage := lifecycle
        medical_constraints :=
          _as_list (pyOr (pyGet r "medical_constraints") (pyGet r "medical_guidelines"))
        legal_requirements :=
          _as_list (pyOr (pyGet r "legal_requirements") (pyGet r "legal_guidelines"))
        seed_image_path := pyGet r "seed_image_path"
        generated_image_path := pyGet r "generated_image_path"
        expert_prompt := pyGet r "expert_prompt" }

/-- The `{"output": ...}` wrapper returned by `get_handoff_output` and
`get_analysis_output` of the template providers. -/
structure OutputWrap where
  output : PDict
deriving DecidableEq, Repr

/-- Embeds `PlaceholderDataSource.list_campaigns`: the whole transport
interaction sits inside `try`/`except Exception: return []` blocks, so
every failing outcome collapses to the empty list and the row mapping
runs on whatever rows were fetched. -/
def PlaceholderDataSource.list_campaigns (o : QueryOutcome) :
    Except PyExn (List CampaignRec) :=
  match o with
  | .importFailure => .ok []
  | .noConn => .ok []
  | .raised => .ok []
  | .rows rs => .ok (rs.filterMap mapCampaignRow)

/-- Embeds `PlaceholderDataSource.get_compliance`: always None. -/
def PlaceholderDataSource.get_compliance (_brief_id : String) :
    Except PyExn (Option PDict) :=
  .ok Option.none

/-- Embeds `PlaceholderDataSource.get_generated_image_b64`: always None. -/
def PlaceholderDataSource.get_generated_image_b64 (_brief_id : String) :
    Except PyExn (Option String) :=
  .ok Option.none

/-- Embeds `PlaceholderDataSource.get_handoff_output`: the empty
`{"output": {}}` contract value. -/
def PlaceholderDataSource.get_handoff_output (_params : PDict) :
    Except PyExn OutputWrap :=
  .ok ⟨[]⟩

/-- Embeds `PlaceholderDataSource.get_analysis_output`: the empty
`{"output": {}}` contract value. -/
def PlaceholderDataSource.get_analysis_output (_params : PDict) :
    Except PyExn OutputWrap :=
  .ok ⟨[]⟩

/-- Embeds `DatabricksDataSource.list_campaigns`: delegates to the
placeholder implementation inside `try`/`except Exception: return []`. -/
def DatabricksDataSource.list_campaigns (o : QueryOutcome) :
    Except PyExn (List CampaignRec) :=
  match PlaceholderDataSource.list_campaigns o with
  | .ok v => .ok v
  | .error _ => .ok []

/-- Embeds `DatabricksDataSource.get_compliance`: the skeleton method
unconditionally raises NotImplementedError. -/
def DatabricksDataSource.get_compliance (_brief_id : String) :
    Except PyExn (Option PDict) :=
  .error (.notImplementedError
    "Implement a query to fetch compliance by brief_id from Unity Catalog.")

/-- Embeds `DatabricksDataSource.get_generated_image_b64`: the skeleton
method unconditionally raises NotImplementedError. -/
def DatabricksDataSource.get_generated_image_b64 (_brief_id : String) :
    Except PyExn (Option String) :=
  .error (.notImplementedError
    "Implement a query or object store fetch to retrieve generated image b64 for brief_id.")

/-- Embeds `DatabricksDataSource.get_handoff_output`: the skeleton
method unconditionally raises NotImplementedError. -/
def DatabricksDataSource.get_handoff_output (_params : PDict) :
    Except PyExn OutputWrap :=
  .error (.notImplementedError
    "Implement a query to fetch handoff output by brief_id or related keys.")

/-- Embeds `DatabricksDataSource.get_analysis_output`: the skeleton
method unconditionally raises NotImplementedError. -/
def DatabricksDataSource.get_analysis_output (_params : PDict) :
    Except PyExn OutputWrap :=
  .error (.notImplementedError
    "Implement a query to fetch analysis outputs / metrics for the campaign.")

/-- An `Except` value that did not propagate an exception. -/
def exceptOk {α : Type} : Except PyExn α → Bool
  | .ok _ => true
  | .error _ => false


/-!
Embedding of `src/streamlit-app/utils.py`: the `normalize_brief`
normalizer, the demo handoff/analysis providers, and the bounded-time
compliance read.  The operative `normalize_brief` and
`get_compliance_from_uc_timeout` of `src/streamlit-app-template/util.py`
and `utils.py` are textually the same definitions (each of those modules
also contains an earlier, shadowed definition that is dead code under
Python redefinition semantics), so they are embedded once here.
-/

/-- Embeds the membership test `x in (None, "", 0)` of the budget
normalization, which uses Python equality (False and 0.0 also compare
equal to 0). -/
def budgetEmpty : PV → Bool
  | .scalar .none => true
  | .scalar (.str s) => s = ""
  | .scalar (.int n) => n = 0
  | .scalar (.bool b) => ¬b
  | _ => false

/-- Embeds `normalize_brief(brief, defaults)`: each of the five result
fields falls back to the default when the brief value is falsy (for
budget: when it compares equal to None, the empty string or 0). -/
def normalize_brief (brief defaults : PDict) : PDict :=
  [("type", pyOr (pyGet brief "type") (pyGet defaults "type")),
   ("audience", pyOr (pyGet brief "audience") (pyGet defaults "audience")),
   ("budget",
     if budgetEmpty (pyGet brief "budget") then pyGet defaults "budget"
     else pyGet brief "budget"),
   ("timeline", pyOr (pyGet brief "timeline") (pyGet defaults "timeline")),
   ("brief", pyOr (pyGet brief "brief") (pyGet defaults "brief"))]

/-- The handoff payload shape of the demo `handoff_config` entries and
of the dictionary under the "output" key of `get_handoff_output`. -/
structure HandoffConfig where
  readiness_status : String
  go_live_timestamp : String
  channels : List String
  budget_allocation : List (String × String)
  monitoring_metrics : List String
  assignees : List (String × String)
  campaign_assets_ready : Bool
  tracking_configured : Bool
  stakeholders_notified : Bool
deriving DecidableEq, Repr

/-- The demo handoff data for brief_001. -/
def handoff_brief_001 : HandoffConfig :=
  { readiness_status := "GO_LIVE"
    go_live_timestamp := "2025-01-15T08:00:00Z"
    channels := ["Instagram", "Facebook", "TikTok", "Google Ads"]
    budget_allocation :=
      [("instagram", "35%"), ("facebook", "30%"), ("tiktok", "20%"), ("google_ads", "15%")]
    monitoring_metrics :=
      ["CTR (Target: >1.2%)",
       "Conversion Rate (Target: >4.5%)",
       "ROAS (Target: >3.5x)",
       "Cost per Install (Target: <$2.50)",
       "User Retention Day 7 (Target: >40%)"]
    assignees :=
      [("instagram", "Sarah Chen (Media)"),
       ("facebook", "Alex Novak (Paid Social)"),
       ("tiktok", "Priya Patel (Creator Partnerships)"),
       ("google_ads", "Mark Li (Search)")]
    campaign_assets_ready := true
    tracking_configured := true
    stakeholders_notified := true }

/-- The demo handoff data for brief_002. -/
def handoff_brief_002 : HandoffConfig :=
  { readiness_status := "GO_LIVE"
    go_live_timestamp := "2025-01-22T10:00:00Z"
    channels := ["Email", "Instagram", "Facebook", "Tiktok"]
    budget_allocation :=
      [("email", "25%"), ("instagram", "40%"), ("facebook", "20%"), ("tiktok", "15%")]
    monitoring_metrics :=
      ["Email Open Rate (Target: >28%)",
       "Click-through Rate (Target: >3.5%)",
       "Conversion Rate (Target: >6.2%)",
       "ROAS (Target: >4.0x)",
       "Customer Lifetime Value (Target: >$185)"]
    assignees :=
      [("email", "Emma Davis (CRM)"),
       ("instagram", "Alex Novak (Paid Social)"),
       ("facebook", "Jamie Wright (Paid Social)"),
       ("Tiktok", "Linda Gómez (Creative Ops)")]
    campaign_assets_ready := true
    tracking_configured := true
    stakeholders_notified := true }

/-- The demo handoff data for brief_003. -/
def handoff_brief_003 : HandoffConfig :=
  { readiness_status := "PENDING"
    go_live_timestamp := "2025-02-05T09:00:00Z"
    channels := ["Instagram", "Facebook", "YouTube", "Search Ads"]
    budget_allocation :=
      [("instagram", "30%"), ("facebook", "25%"), ("youtube", "25%"), ("search_ads", "20%")]
    monitoring_metrics :=
      ["View-through Rate (Target: >2.1%)",
       "Engagement Rate (Target: >5.8%)",
       "Conversion Rate (Target: >5.0%)",
       "ROAS (Target: >3.2x)",
       "Video Completion Rate (Target: >65%)"]
    assignees :=
      [("instagram", "Mina Rao (Paid Social)"),
       ("facebook", "Jamie Wright (Paid Social)"),
       ("youtube", "Chris Park (Video)"),
       ("search_ads", "Mark Li (Search)")]
    campaign_assets_ready := false
    tracking_configured := true
    stakeholders_notified := false }

/-- The `handoff_config` dictionary of `get_handoff_output`. -/
def handoff_config : List (String × HandoffConfig) :=
  [("brief_001", handoff_brief_001),
   ("brief_002", handoff_brief_002),
   ("brief_003", handoff_brief_003)]

/-- Embeds `get_handoff_output(params)` of the demo provider.  The only
entry read from `params` is "brief_id" (with default "brief_001" when
the key is absent), so the parameter dictionary is carried as that
optional entry.  The source wraps the selected configuration in an
`{"output": ...}` dictionary whose fields are exactly the
configuration fields; the payload is returned directly here. -/
def get_handoff_output (params_brief_id : Option String) : HandoffConfig :=
  let campaign_brief_id := params_brief_id.getD "brief_001"
  (dictGet handoff_config campaign_brief_id).getD handoff_brief_001

/-- One demo performance metric.  The float literals of the source are
carried as their decimal text: no claim performs arithmetic on them. -/
structure PerfMetric where
  metric : String
  value : String
  benchmark : String
  status : String
  context : String
deriving DecidableEq, Repr

/-- The next-iteration recommendation block of a demo scenario. -/
structure NextIteration where
  focus : String
  recommended_budget_shift : String
  creative_strategy : String
  targeting_expansion : String
  timeline : String
deriving DecidableEq, Repr

/-- One demo analysis scenario. -/
structure AnalysisScenario where
  performance_metrics : List PerfMetric
  key_findings : List String
  next_iteration_brief : NextIteration
deriving DecidableEq, Repr

/-- The demo analysis scenario for brief_001. -/
def analysis_brief_001 : AnalysisScenario :=
  { performance_metrics :=
      [⟨"Click-Through Rate", "1.42", "1.2", "↑ +18%", "Above industry average for health apps"⟩,
       ⟨"Cost Per Install", "2.15", "2.5", "↓ -14%", "Better than benchmark, efficient spend"⟩,
       ⟨"7-Day Retention", "48.3", "45.0", "↑ +7.3%", "Strong early engagement signals"⟩,
       ⟨"Install Volume", "12450", "10000", "↑ +24.5%", "Exceeded initial targets"⟩,
       ⟨"Cost Per Mille (CPM)", "8.75", "9.2", "↓ -5%", "Efficient media buying"⟩]
    key_findings :=
      ["Instagram and TikTok driving 68% of installs (highest ROI channels)",
       "Video creative (20s) outperforms carousel ads by 34%",
       "Women 25-30 segment shows 42% higher LTV than 18-24",
       "Peak engagement occurs Tuesday-Thursday, 7-9 PM",
       "User flow optimization increased conversion by 12%"]
    next_iteration_brief :=
      ⟨"Scale winning creative + expand to lookalike audiences",
       "Increase TikTok from 30% → 40%, reduce Tiktok 10% → 5%",
       "Test 15s vertical format, double down on educational content",
       "Expand to +35 segment, test interest overlap with wellness apps",
       "Week 3-4 of campaign"⟩ }

/-- The demo analysis scenario for brief_002. -/
def analysis_brief_002 : AnalysisScenario :=
  { performance_metrics :=
      [⟨"Email Open Rate", "28.5", "25.0", "↑ +14%", "Strong subject line performance"⟩,
       ⟨"In-App Engagement", "3.2", "2.5", "↑ +28%", "Users spending more time with features"⟩,
       ⟨"Re-activation Rate", "18.7", "12.0", "↑ +56%", "Win-back campaign highly effective"⟩,
       ⟨"Customer Lifetime Value (CLTV)", "245.80", "180.0", "↑ +36.5%", "Retention strategy improving LTV significantly"⟩,
       ⟨"Churn Rate", "4.2", "6.5", "↓ -35%", "Lower than expected churn"⟩]
    key_findings :=
      ["Educational content (expert Q&A) drives 2.8x higher engagement than promotional",
       "Email cadence of 2x/week optimal; 3x/week shows 15% increase in unsubscribes",
       "In-app feature adoption: 67% users access community, 54% use symptom tracker",
       "Retention cohort from menopause content shows 23% higher LTV",
       "Personalized recommendations increase session length by 34%"]
    next_iteration_brief :=
      ⟨"Deepen engagement through community features + expert partnerships",
       "Reallocate 10% from Facebook to in-app experience improvements",
       "Feature community stories, expert testimonials, symptom management tools",
       "Expand to perimenopause audience (40-45), partner with OB-GYN practices",
       "Weeks 5-8 of campaign"⟩ }

/-- The demo analysis scenario for brief_003. -/
def analysis_brief_003 : AnalysisScenario :=
  { performance_metrics :=
      [⟨"Video Completion Rate", "67.8", "60.0", "↑ +13%", "Strong video content performance"⟩,
       ⟨"Email Signup Rate", "8.4", "6.5", "↑ +29%", "Educational series converting well"⟩,
       ⟨"Content Engagement Rate", "4.6", "3.2", "↑ +44%", "Educational focus resonates"⟩,
       ⟨"Series Completion Rate", "72.5", "55.0", "↑ +32%", "High interest in educational journey"⟩,
       ⟨"Social Share Rate", "12.3", "8.0", "↑ +54%", "Highly shareable content"⟩]
    key_findings :=
      ["YouTube channel driving 89% of views and 92% of email signups",
       "3-part educational series on pregnancy timeline most popular (145K views)",
       "Audience age: 28-35 shows 3.2x higher engagement than 25-28",
       "Instagram carousel posts (timeline infographics) get 4.8x more saves",
       "Content about \x27what to expect\x27 generates 2.1x more comments than symptom posts"]
    next_iteration_brief :=
      ⟨"Expand educational video series + build community around journey",
       "Increase YouTube from 35% → 45%, reduce TikTok 15% → 8%",
       "Launch \x27Your Pregnancy Timeline\x27 video series (8 episodes), add expert interviews",
       "Add couples demographic, women planning pregnancy (no current pregnancy)",
       "Weeks 6-10 of campaign"⟩ }

/-- The `analysis_scenarios` dictionary of `get_analysis_output`. -/
def analysis_scenarios : List (String × AnalysisScenario) :=
  [("brief_001", analysis_brief_001),
   ("brief_002", analysis_brief_002),
   ("brief_003", analysis_brief_003)]

/-- Embeds `get_analysis_output(params)` of the demo provider:
`brief_id = params.get("brief_id") or ""`, scenario lookup with
brief_001 as fallback, and the `{"output": ...}` wrapper carrying the
scenario fields; the payload is returned directly here. -/
def get_analysis_output (params_brief_id : Option String) : AnalysisScenario :=
  let brief_id :=
    match params_brief_id with
    | Option.none => ""
    | some s => if s = "" then "" else s
  (dictGet analysis_scenarios brief_id).getD analysis_brief_001

/-- One row of `flo_martech.compliance_decisions` as fetched by
`get_compliance_from_uc` (seventeen selected columns). -/
structure ComplianceRow where
  brief_id : SV
  campaign_name : SV
  medical_legal_score : SV
  privacy_score : SV
  brand_score : SV
  accessibility_score : SV
  content_score : SV
  overall_score : SV
  approval_status : SV
  final_recommendation : SV
  reviewed_at : SV
  reviewed_by : SV
  confidence_score : SV
  issues_json : SV
  issue_count : SV
  critical_count : SV
  high_count : SV
deriving DecidableEq, Repr

/-- Outcome of the warehouse interaction inside
`get_compliance_from_uc`: no connection, an exception anywhere in the
`try` block, a miss, or the most recent row for the brief. -/
inductive UCOutcome where
  | noConn
  | raised
  | noRow
  | row (r : ComplianceRow)
deriving Repr

/-- Embeds `float(x or 0)` / `int(x or 0)`: the value when truthy, the
numeric zero otherwise (numeric conversion is the identity on the
numeric model values). -/
def numOr0 (v : SV) : SV :=
  if v.truthy then v else .int 0

/-- Embeds `x or "PENDING"`. -/
def statusOrPending (v : SV) : SV :=
  if v.truthy then v else .str "PENDING"

/-- Embeds `get_compliance_from_uc(brief_id)` with `DEBUG_UC` false:
every failure path returns the empty dictionary, a hit returns the
mapped row dictionary led by a "status": "success" entry. -/
def get_compliance_from_uc (_brief_id : String) (o : UCOutcome) : PDict :=
  match o with
  | .noConn => []
  | .raised => []
  | .noRow => []
  | .row r =>
    [("status", PV.s "success"),
     ("brief_id", .scalar r.brief_id),
     ("campaign_name", .scalar r.campaign_name),
     ("medical_legal_score", .scalar (numOr0 r.medical_legal_score)),
     ("privacy_score", .scalar (numOr0 r.privacy_score)),
     ("brand_score", .scalar (numOr0 r.brand_score)),
     ("accessibility_score", .scalar (numOr0 r.accessibility_score)),
     ("content_score", .scalar (numOr0 r.content_score)),
     ("overall_score", .scalar (numOr0 r.overall_score)),
     ("approval_status", .scalar (statusOrPending r.approval_status)),
     ("final_recommendation", .scalar r.final_recommendation),
     ("reviewed_at", .scalar r.reviewed_at),
     ("reviewed_by", .scalar r.reviewed_by),
     ("confidence_score", .scalar (numOr0 r.confidence_score)),
     ("issues_json", .scalar r.issues_json),
     ("issue_count", .scalar (numOr0 r.issue_count)),
     ("critical_count", .scalar (numOr0 r.critical_count)),
     ("high_count", .scalar (numOr0 r.high_count))]

/-- Embeds `_run_with_timeout(fn, args, timeout)` for a worker that
needs `duration` seconds and returns `fn_result`: the thread is joined
with the timeout, and `{"_timeout": True}` is returned when the worker
is still alive afterwards, i.e. exactly when the duration exceeds the
timeout.  (`get_compliance_from_uc` never raises, so the re-raise
branch of the wrapper is unreachable for this worker.) -/
def run_with_timeout (duration : Nat) (fn_result : PDict) (timeout : Nat) : PDict :=
  if timeout < duration then [("_timeout", .scalar (.bool true))] else fn_result

/-- Embeds `get_compliance_from_uc_timeout(brief_id, timeout)` for a
warehouse interaction with the given outcome and duration. -/
def get_compliance_from_uc_timeout (brief_id : String) (duration : Nat)
    (o : UCOutcome) (timeout : Nat) : PDict :=
  let res := run_with_timeout duration (get_compliance_from_uc brief_id o) timeout
  if (pyGet res "_timeout").truthy then
    [("status", PV.s "error"),
     ("message", PV.s ("UC fetch timed out after " ++ toString timeout ++ "s"))]
  else if res = [] then [] else res


/-!
Embedding of the approval workflow state machine of
`src/streamlit-app/app.py`.  The session state is an explicit record;
the `workflow_state` dictionary is split into its `step`, `agent` and
`messages` entries plus an ordered dictionary for its boolean entries,
because `render_approval_section` writes the key
`f"{agent_name.lower()}_approved"` for an arbitrary stage name.  Each
user interaction of one script run is one transition; display-only
session keys (generation timestamps, quality score, image dimensions)
are not part of the modelled state.
-/

/-- One entry of `PRODUCTION_CAMPAIGNS` (the dictionary key always
equals the brief_id field).  The `type` key is carried by the field
`ctype`; the display-only enrichment fields merged from `BRIEFS_DATA`
(lifecycle_stage, key_message, target_segment, constraints) are not
read by any modelled transition and are omitted.  The image paths are
carried relative to the environment-dependent `APP_BASE_DIR`. -/
structure Campaign where
  brief_id : String
  brief_title : String
  campaign_name : String
  ctype : String
  seed_image_path : String
  generated_image_path : String
  expert_prompt : String
deriving DecidableEq, Repr

/-- The brief_001 campaign of `PRODUCTION_CAMPAIGNS`. -/
def camp_brief_001 : Campaign :=
  { brief_id := "brief_001"
    brief_title := "Women\x27s Health Awareness"
    campaign_name := "Women\x27s Health Awareness - Q1 Acquisition"
    ctype := "Acquisition"
    seed_image_path := "images/seed_images/flo_cycle_tracking.jpg"
    generated_image_path := "images/generated/brief_001_Women\x27s_Health_Awareness_-_Q1_Acquisition.png"
    expert_prompt := "A warm, inviting lifestyle image showing three diverse women (Black, Asian, and Caucasian, ages 20-35) in a bright, airy space with natural lighting. They\x27re casually dressed in comfortable athleisure wear, smiling and engaging with smartphones displaying the app interface. The composition is balanced with women positioned on the right two-thirds, leaving space for text on the left. The color palette features soft gradients of coral (#F15A6B) and pink (#FF9A9E) accents that complement natural tones. Text overlay reads \"Your personalized women\x27s health companion\" in a clean, modern sans-serif font. The mood is empowering, supportive and professional. Style reference: modern lifestyle photography with soft shadows, slight depth of field, and high-end magazine editorial quality. 1200x628px format with room for Meta/Instagram safe zones." }

/-- The brief_002 campaign of `PRODUCTION_CAMPAIGNS`. -/
def camp_brief_002 : Campaign :=
  { brief_id := "brief_002"
    brief_title := "Menopause Support"
    campaign_name := "Menopause Support - Retention Campaign"
    ctype := "Retention"
    seed_image_path := "images/seed_images/flo_menopause.jpg"
    generated_image_path := "images/generated/brief_002_Menopause_Support_-_Retention_Campaign.png"
    expert_prompt := "A warm, empowering image of three diverse women in their 40s-50s smiling confidently together in a bright, airy space with soft natural lighting. They appear supportive, relaxed and vibrant, dressed in casual-elegant clothing with subtle coral and pink accents. The background features gentle gradient transitions from soft coral (#F15A6B) to light pink (#FF9A9E). Text overlay reads \"Navigate menopause with confidence\" in modern, clean typography positioned elegantly in the composition. The overall aesthetic combines professional healthcare quality with approachable warmth, avoiding clinical sterility. Photographic style with subtle depth of field, 1200x628px ratio optimized for social media, high-resolution with balanced negative space for text placement." }

/-- The brief_003 campaign of `PRODUCTION_CAMPAIGNS`. -/
def camp_brief_003 : Campaign :=
  { brief_id := "brief_003"
    brief_title := "Pregnancy Planning"
    campaign_name := "Pregnancy Planning - Educational Series"
    ctype := "Engagement"
    seed_image_path := "images/seed_images/flo_pregnancy.jpg"
    generated_image_path := "images/generated/brief_003_Pregnancy_Planning_-_Educational_Series.png"
    expert_prompt := "A warm, inviting digital illustration showing a diverse group of women (25-40, different ethnicities) gathered around a stylized pregnancy planning calendar/app interface. The women are smiling and engaged, pointing at data visualizations and pregnancy timeline markers. The interface should feature clean, minimalist design with coral (#F15A6B) and pink (#FF9A9E) color accents. Background has a soft gradient from white to pale pink. Include subtle pregnancy-related icons (baby footprints, hearts) floating in background. Text overlay in modern sans-serif font: \"Plan your pregnancy with data-driven insights\" positioned prominently but elegantly. The overall composition should balance professional medical authority with warmth and optimism. Lighting is bright and airy with soft shadows. Style reference: modern digital illustration similar to medical textbook illustrations but with a friendly, approachable aesthetic. 1200x628px, Instagram/Meta format, high resolution." }

/-- The `PRODUCTION_CAMPAIGNS` dictionary. -/
def PRODUCTION_CAMPAIGNS : List (String × Campaign) :=
  [("brief_001", camp_brief_001),
   ("brief_002", camp_brief_002),
   ("brief_003", camp_brief_003)]

/-- The `DEFAULT_BRIEF` dictionary. -/
def DEFAULT_BRIEF : PDict :=
  [("type", PV.s "Awareness"),
   ("audience", PV.s "Women 18-35, health-conscious, digital-native"),
   ("budget", .scalar (.int 250000)),
   ("timeline", PV.s "6 weeks"),
   ("brief", PV.s "Increase awareness, drive feature adoption, and build community. KPIs: CTR > 1.2%, Conversion > 4.5%, ROAS > 3.5x.")]

/-- The `st.session_state.workflow_state` dictionary: `step`, `agent`
and `messages` entries plus the ordered dictionary of its boolean
entries (`briefing_approved`, `production_approved`,
`compliance_approved`, `handoff_approved`, `analysis_complete`, and
any key written by `render_approval_section`). -/
structure Workflow where
  step : Nat
  agent : String
  bools : List (String × Bool)
  messages : List String
deriving DecidableEq, Repr

/-- Reads a boolean workflow entry with Python `.get(key, False)`
semantics. -/
def wfGet (w : Workflow) (k : String) : Bool :=
  (dictGet w.bools k).getD false

/-- The initial `workflow_state` value used by the session
initialization and by every reset site. -/
def initWorkflow : Workflow :=
  { step := 0
    agent := "idle"
    bools :=
      [("briefing_approved", false),
       ("production_approved", false),
       ("compliance_approved", false),
       ("handoff_approved", false),
       ("analysis_complete", false)]
    messages := [] }

/-- The modelled session state of one user session. -/
structure AppState where
  campaign_id : Option String
  workflow : Workflow
  approval_feedback : List (String × String)
  campaign_meta : Option (String × String × String)
  campaign_brief : PDict
  workflow_started : Bool
  prod_selected_campaign_prev : Option String
  prod_generated : Bool
  prod_prompt_generated : Bool
  prod_seed_found : Bool
  prod_generating : Bool
  prod_prompt_text : Option String
  generated_image_path : Option String
deriving DecidableEq, Repr

/-- Embeds `render_approval_section(agent_name, step_num)` for one
script run in which the approve or reject button may have been
clicked.  Approve sets the `f"{agent_name.lower()}_approved"` workflow
entry to True, records the feedback under the stage name and sets the
step; reject (and no click) only renders messages.  The returned flag
is the function result. -/
def render_approval_section (agent_name : String) (step_num : Nat)
    (approve_clicked reject_clicked : Bool) (feedback : String)
    (s : AppState) : Bool × AppState :=
  let approval_key := sLower agent_name ++ "_approved"
  if approve_clicked then
    (true,
     { s with
       workflow :=
         { s.workflow with
           bools := dictSet s.workflow.bools approval_key true
           step := step_num }
       approval_feedback := dictSet s.approval_feedback agent_name feedback })
  else
    let _ := reject_clicked
    (false, s)

/-- Embeds one interaction with the Compliance tab.  `record_found`
models whether `get_compliance_from_uc_timeout` returned a truthy
record; the approval section is only rendered in that branch, and an
approval additionally re-asserts the flag and step before the rerun. -/
def complianceTab (record_found approve_clicked reject_clicked : Bool)
    (feedback : String) (s : AppState) : AppState :=
  match s.campaign_meta with
  | Option.none => s
  | some meta =>
    if meta.1 = "" then s
    else if ¬ record_found then s
    else
      let (approved, s1) :=
        render_approval_section "Compliance" 4 approve_clicked reject_clicked feedback s
      if approved then
        { s1 with
          workflow :=
            { s1.workflow with
              bools := dictSet s1.workflow.bools "compliance_approved" true
              step := 4 } }
      else s1

/-- Embeds one interaction with the Handoff tab: the tab body, and in
particular its approval section, is guarded by `compliance_approved`;
an approval additionally re-asserts the flag and step before the
rerun. -/
def handoffTab (approve_clicked reject_clicked : Bool) (feedback : String)
    (s : AppState) : AppState :=
  if ¬ wfGet s.workflow "compliance_approved" then s
  else
    let (approved, s1) :=
      render_approval_section "Handoff" 5 approve_clicked reject_clicked feedback s
    if approved then
      { s1 with
        workflow :=
          { s1.workflow with
            bools := dictSet s1.workflow.bools "handoff_approved" true
            step := 5 } }
    else s1

/-- The campaign the Production tab operates on:
`st.session_state.get("prod_selected_campaign_prev") or first key`,
then a `PRODUCTION_CAMPAIGNS` lookup (the stored key is always a
dictionary key in the source; the fallback mirrors the first entry). -/
def currentCampaign (s : AppState) : Campaign :=
  let selected_key := s.prod_selected_campaign_prev.getD "brief_001"
  (dictGet PRODUCTION_CAMPAIGNS selected_key).getD camp_brief_001

/-- Embeds a click of the Generate Expert Prompt button. -/
def promptGenerate (s : AppState) : AppState :=
  if s.prod_prompt_generated then s
  else
    { s with
      prod_prompt_generated := true
      prod_prompt_text := some (currentCampaign s).expert_prompt }

/-- Embeds a click of the Find Seed Image button (only rendered once
the expert prompt was generated). -/
def seedFound (s : AppState) : AppState :=
  if s.prod_prompt_generated ∧ ¬ s.prod_seed_found then
    { s with prod_seed_found := true }
  else s

/-- Embeds the completion of the staged generation flow of the
Production tab: only reachable when generation has not happened yet and
both prerequisite steps are done; it persists the generated image path
and advances the step directly to 3 before the rerun. -/
def generationComplete (s : AppState) : AppState :=
  if s.prod_generated then s
  else if ¬ (s.prod_prompt_generated ∧ s.prod_seed_found) then s
  else
    { s with
      prod_generating := false
      prod_generated := true
      generated_image_path := some (currentCampaign s).generated_image_path
      workflow := { s.workflow with step := 3 } }

/-- Embeds the campaign switch of the Briefing tab (the
`select_campaign` transition): the reset body runs when the stored
previous selection is None or differs from the selected key, and is
skipped otherwise.  The selectbox key equals the campaign brief_id. -/
def selectCampaign (c : Campaign) (s : AppState) : AppState :=
  if s.prod_selected_campaign_prev = some c.brief_id then s
  else
    { s with
      prod_generated := false
      prod_prompt_generated := false
      prod_seed_found := false
      prod_prompt_text := Option.none
      generated_image_path := some c.generated_image_path
      prod_selected_campaign_prev := some c.brief_id
      campaign_meta := some (c.brief_id, c.brief_title, c.campaign_name)
      campaign_id := some c.brief_id
      campaign_brief := dictSet s.campaign_brief "type" (PV.s c.ctype)
      workflow := initWorkflow
      approval_feedback := [] }

/-- The campaign brief derived on the start screen before the Start
button: `normalize_brief` of the selected type with the default
audience, budget, timeline and objective over `DEFAULT_BRIEF`. -/
def startScreenBrief (c : Campaign) : PDict :=
  normalize_brief
    [("type", PV.s c.ctype),
     ("audience", pyGet DEFAULT_BRIEF "audience"),
     ("budget", pyGet DEFAULT_BRIEF "budget"),
     ("timeline", pyGet DEFAULT_BRIEF "timeline"),
     ("brief", pyGet DEFAULT_BRIEF "brief")]
    DEFAULT_BRIEF

/-- Embeds a click of the Start Campaign Creation button on the intro
screen (including the selectbox assignments that precede it in the
same run). -/
def startCampaign (c : Campaign) (s : AppState) : AppState :=
  { s with
    campaign_meta := some (c.brief_id, c.brief_title, c.campaign_name)
    campaign_brief := startScreenBrief c
    campaign_id := some c.brief_id
    prod_generated := false
    workflow := initWorkflow
    approval_feedback := []
    workflow_started := true }

/-- The user interactions exposed by the workflow UI, one per script
run. -/
inductive Ev where
  | select (c : Campaign)
  | start (c : Campaign)
  | promptGen
  | seedFind
  | generate
  | complianceAct (record_found approve reject : Bool) (fb : String)
  | handoffAct (approve reject : Bool) (fb : String)

/-- The transition function of the workflow state machine. -/
def stepApp (e : Ev) (s : AppState) : AppState :=
  match e with
  | .select c => selectCampaign c s
  | .start c => startCampaign c s
  | .promptGen => promptGenerate s
  | .seedFind => seedFound s
  | .generate => generationComplete s
  | .complianceAct rf a r fb => complianceTab rf a r fb s
  | .handoffAct a r fb => handoffTab a r fb s

/-- The session state right after the session-state initialization of
the source (before any interaction). -/
def initialAppState : AppState :=
  { campaign_id := Option.none
    workflow := initWorkflow
    approval_feedback := []
    campaign_meta := Option.none
    campaign_brief := DEFAULT_BRIEF
    workflow_started := false
    prod_selected_campaign_prev := Option.none
    prod_generated := false
    prod_prompt_generated := false
    prod_seed_found := false
    prod_generating := false
    prod_prompt_text := Option.none
    generated_image_path := Option.none }

/-!
Supporting lemmas.
-/

/-- Lookup after an ordered-dict assignment. -/
theorem dictGet_dictSet {α : Type} (d : List (String × α)) (k k2 : String) (v : α) :
    dictGet (dictSet d k v) k2 = if k2 = k then some v else dictGet d k2 := by
  induction d with
  | nil =>
    simp only [dictSet, dictGet]
  | cons hd tl ih =>
    obtain ⟨k3, v3⟩ := hd
    by_cases h1 : k = k3
    · subst h1
      by_cases h2 : k2 = k <;> simp [dictGet, dictSet, h2]
    · by_cases h2 : k2 = k3
      · subst h2
        have hne : ¬ (k2 = k) := fun h => h1 h.symm
        simp [dictGet, dictSet, h1, hne]
      · simp [dictGet, dictSet, h1, h2, ih]

/-- A Python `or` whose left operand is falsy yields the right operand. -/
theorem pyOr_falsy (a b : PV) (h : a.truthy = false) : pyOr a b = b := by
  simp [pyOr, h]

/-- A Python `or` is never None when its right operand is not None. -/
theorem pyOr_ne_none (a b : PV) (hb : b ≠ PV.n) : pyOr a b ≠ PV.n := by
  unfold pyOr
  split
  · rename_i ht
    intro hEq
    rw [hEq] at ht
    simp [PV.truthy, SV.truthy, PV.n] at ht
  · exact hb

/-- The lower-cased Compliance approval key. -/
theorem compliance_key_eval : sLower "Compliance" ++ "_approved" = "compliance_approved" := by
  decide

/-- The lower-cased Handoff approval key. -/
theorem handoff_key_eval : sLower "Handoff" ++ "_approved" = "handoff_approved" := by
  decide

/-!
Claim theorems.
-/

/-- C1, counterexample: the claim says no provider operation ever
propagates an exception, but `DatabricksDataSource.get_compliance`
raises NotImplementedError to the caller at the concrete input
"brief_001". -/
theorem databricks_get_compliance_raises :
    DatabricksDataSource.get_compliance "brief_001"
      = Except.error (PyExn.notImplementedError
          "Implement a query to fetch compliance by brief_id from Unity Catalog.") := rfl

/-- C1, amended: for the PlaceholderDataSource all five operations, and
for DatabricksDataSource the list_campaigns operation, any failure of
the underlying transport or query collapses to the designated
empty/absent sentinel and no exception is propagated; the remaining
four DatabricksDataSource operations are unimplemented skeletons that
unconditionally raise NotImplementedError. -/
theorem datasource_error_containment :
    (∀ o : QueryOutcome, exceptOk (PlaceholderDataSource.list_campaigns o) = true)
    ∧ PlaceholderDataSource.list_campaigns QueryOutcome.raised = .ok []
    ∧ PlaceholderDataSource.list_campaigns QueryOutcome.noConn = .ok []
    ∧ PlaceholderDataSource.list_campaigns QueryOutcome.importFailure = .ok []
    ∧ (∀ brief_id : String, PlaceholderDataSource.get_compliance brief_id = .ok Option.none)
    ∧ (∀ brief_id : String,
        PlaceholderDataSource.get_generated_image_b64 brief_id = .ok Option.none)
    ∧ (∀ params : PDict, PlaceholderDataSource.get_handoff_output params = .ok ⟨[]⟩)
    ∧ (∀ params : PDict, PlaceholderDataSource.get_analysis_output params = .ok ⟨[]⟩)
    ∧ (∀ o : QueryOutcome, exceptOk (DatabricksDataSource.list_campaigns o) = true)
    ∧ DatabricksDataSource.list_campaigns QueryOutcome.raised = .ok []
    ∧ (∀ brief_id : String, exceptOk (DatabricksDataSource.get_compliance brief_id) = false)
    ∧ (∀ brief_id : String,
        exceptOk (DatabricksDataSource.get_generated_image_b64 brief_id) = false)
    ∧ (∀ params : PDict, exceptOk (DatabricksDataSource.get_handoff_output params) = false)
    ∧ (∀ params : PDict, exceptOk (DatabricksDataSource.get_analysis_output params) = false) := by
  refine ⟨?_, rfl, rfl, rfl, fun _ => rfl, fun _ => rfl, fun _ => rfl, fun _ => rfl,
    ?_, rfl, fun _ => rfl, fun _ => rfl, fun _ => rfl, fun _ => rfl⟩
  · intro o
    cases o <;> rfl
  · intro o
    cases o <;> rfl

/-- C4: for every prior state, stage name and feedback text, the
reject transition returns success=false and leaves the entire session
state, in particular the step and the four approval flags, unchanged. -/
theorem reject_preserves_state (agent_name : String) (step_num : Nat)
    (feedback : String) (s : AppState) :
    (render_approval_section agent_name step_num false true feedback s).1 = false
    ∧ (render_approval_section agent_name step_num false true feedback s).2 = s
    ∧ ((render_approval_section agent_name step_num false true feedback s).2).workflow.step
        = s.workflow.step
    ∧ wfGet ((render_approval_section agent_name step_num false true feedback s).2).workflow
        "briefing_approved" = wfGet s.workflow "briefing_approved"
    ∧ wfGet ((render_approval_section agent_name step_num false true feedback s).2).workflow
        "production_approved" = wfGet s.workflow "production_approved"
    ∧ wfGet ((render_approval_section agent_name step_num false true feedback s).2).workflow
        "compliance_approved" = wfGet s.workflow "compliance_approved"
    ∧ wfGet ((render_approval_section agent_name step_num false true feedback s).2).workflow
        "handoff_approved" = wfGet s.workflow "handoff_approved" := by
  simp [render_approval_section]

/-- C5: for every stage name, feedback text, next step and prior state,
the approve transition returns success=true, sets the workflow flag
keyed by the lower-cased stage name plus "_approved" to True, records
the feedback under the stage name (overwriting any prior value) and
sets the step to the given next step. -/
theorem approve_sets_flag_feedback_step (agent_name : String) (feedback : String)
    (next_step : Nat) (s : AppState) :
    (render_approval_section agent_name next_step true false feedback s).1 = true
    ∧ dictGet ((render_approval_section agent_name next_step true false feedback s).2).workflow.bools
        (sLower agent_name ++ "_approved") = some true
    ∧ dictGet ((render_approval_section agent_name next_step true false feedback s).2).approval_feedback
        agent_name = some feedback
    ∧ ((render_approval_section agent_name next_step true false feedback s).2).workflow.step
        = next_step := by
  refine ⟨rfl, ?_, ?_, rfl⟩
  · simp [render_approval_section, dictGet_dictSet]
  · simp [render_approval_section, dictGet_dictSet]

/-- C7: the list-field normalizer maps the four input shapes of the
claim to the expected ordered string lists (native list, JSON-encoded
string, comma-separated string, scalar). -/
theorem as_list_four_shapes :
    _as_list (PV.list [.str "a", .str "b"]) = ["a", "b"]
    ∧ _as_list (PV.s "[\"a\",\"b\"]") = ["a", "b"]
    ∧ _as_list (PV.s "a, b") = ["a", "b"]
    ∧ _as_list (PV.s "a") = ["a"] := by
  refine ⟨by decide, by decide, by decide, by decide⟩

/-- C10: for every brief_id outside the known demo set, the demo
provider returns the fully populated brief_001 handoff plan and
analysis output (not an empty structure), while each known id yields
its own distinct data. -/
theorem demo_outputs_fallback_to_brief_001 :
    (∀ brief_id : String,
       brief_id ∉ (["brief_001", "brief_002", "brief_003"] : List String) →
       get_handoff_output (some brief_id) = handoff_brief_001
       ∧ get_analysis_output (some brief_id) = analysis_brief_001)
    ∧ get_handoff_output (some "brief_001") = handoff_brief_001
    ∧ get_handoff_output (some "brief_002") = handoff_brief_002
    ∧ get_handoff_output (some "brief_003") = handoff_brief_003
    ∧ get_analysis_output (some "brief_001") = analysis_brief_001
    ∧ get_analysis_output (some "brief_002") = analysis_brief_002
    ∧ get_analysis_output (some "brief_003") = analysis_brief_003
    ∧ handoff_brief_002 ≠ handoff_brief_001
    ∧ handoff_brief_003 ≠ handoff_brief_001
    ∧ analysis_brief_002 ≠ analysis_brief_001
    ∧ analysis_brief_003 ≠ analysis_brief_001
    ∧ handoff_brief_001.channels ≠ []
    ∧ handoff_brief_001.monitoring_metrics ≠ []
    ∧ handoff_brief_001.budget_allocation ≠ []
    ∧ analysis_brief_001.performance_metrics ≠ []
    ∧ analysis_brief_001.key_findings ≠ [] := by
  refine ⟨?_, by decide, by decide, by decide, by decide, by decide, by decide,
    by decide, by decide, by decide, by decide,
    by decide, by decide, by decide, by decide, by decide⟩
  intro brief_id h
  simp only [List.mem_cons, List.not_mem_nil, or_false, not_or] at h
  obtain ⟨h1, h2, h3⟩ := h
  constructor
  · simp [get_handoff_output, handoff_config, dictGet, h1, h2, h3]
  · by_cases h0 : brief_id = ""
    · subst h0
      decide
    · simp [get_analysis_output, analysis_scenarios, dictGet, h0, h1, h2, h3]

/-- C10, witness: the fallback equalities at the concrete unknown id
"brief_999". -/
theorem demo_outputs_fallback_witness :
    get_handoff_output (some "brief_999") = handoff_brief_001
    ∧ get_analysis_output (some "brief_999") = analysis_brief_001 :=
  demo_outputs_fallback_to_brief_001.1 "brief_999" (by decide)

/-- C2: the only stage whose prerequisite is an approval flag is
Handoff (guarded by `compliance_approved`); whenever that flag is
false, any interaction with the Handoff tab, in particular a click of
its approve button, leaves the session state unchanged: no approval
flag is set and the step does not advance. -/
theorem handoff_approve_refused_without_compliance
    (s : AppState) (approve_clicked reject_clicked : Bool) (feedback : String)
    (h : wfGet s.workflow "compliance_approved" = false) :
    handoffTab approve_clicked reject_clicked feedback s = s := by
  simp [handoffTab, h]

/-- C2, witness: in the initial state compliance is not approved and an
approve click on the Handoff tab is a no-op. -/
theorem handoff_approve_refused_witness :
    wfGet initialAppState.workflow "compliance_approved" = false
    ∧ handoffTab true false "" initialAppState = initialAppState :=
  ⟨by decide,
   handoff_approve_refused_without_compliance initialAppState true false "" (by decide)⟩

/-- An interaction with the Compliance tab never changes the
`handoff_approved` workflow entry. -/
theorem complianceTab_handoff_flag (rf a r : Bool) (fb : String) (s : AppState) :
    wfGet (complianceTab rf a r fb s).workflow "handoff_approved"
      = wfGet s.workflow "handoff_approved" := by
  have hne : ¬ (("handoff_approved" : String) = "compliance_approved") := by decide
  cases hm : s.campaign_meta with
  | none => simp [complianceTab, hm]
  | some meta =>
    by_cases hb : meta.1 = ""
    · simp [complianceTab, hm, hb]
    · by_cases hrf : rf
      · by_cases ha : a
        · simp [complianceTab, hm, hb, hrf, ha, render_approval_section,
            compliance_key_eval, wfGet, dictGet_dictSet, hne]
        · simp [complianceTab, hm, hb, hrf, ha, render_approval_section]
      · simp [complianceTab, hm, hb, hrf]

/-- C3: in any transition of the workflow state machine (from any
state, reachable ones included), `handoff_approved` can change from
false to true only if `compliance_approved` already held immediately
before the transition. -/
theorem handoff_flag_requires_prior_compliance (s : AppState) (e : Ev)
    (h1 : wfGet s.workflow "handoff_approved" = false)
    (h2 : wfGet (stepApp e s).workflow "handoff_approved" = true) :
    wfGet s.workflow "compliance_approved" = true := by
  cases e with
  | select c =>
    by_cases hg : s.prod_selected_campaign_prev = some c.brief_id
    · simp only [stepApp, selectCampaign, if_pos hg] at h2
      exact Bool.noConfusion (h1.symm.trans h2)
    · simp [stepApp, selectCampaign, hg, wfGet, initWorkflow, dictGet] at h2
  | start c =>
    simp [stepApp, startCampaign, wfGet, initWorkflow, dictGet] at h2
  | promptGen =>
    have hw : (stepApp Ev.promptGen s).workflow = s.workflow := by
      simp only [stepApp, promptGenerate]
      split <;> rfl
    rw [hw] at h2
    exact Bool.noConfusion (h1.symm.trans h2)
  | seedFind =>
    have hw : (stepApp Ev.seedFind s).workflow = s.workflow := by
      simp only [stepApp, seedFound]
      split <;> rfl
    rw [hw] at h2
    exact Bool.noConfusion (h1.symm.trans h2)
  | generate =>
    have hw : (stepApp Ev.generate s).workflow.bools = s.workflow.bools := by
      simp only [stepApp, generationComplete]
      split
      · rfl
      · split <;> rfl
    simp only [wfGet, hw] at h2
    simp only [wfGet] at h1
    exact Bool.noConfusion (h1.symm.trans h2)
  | complianceAct rf a r fb =>
    have hw := complianceTab_handoff_flag rf a r fb s
    simp only [stepApp] at h2
    rw [hw] at h2
    exact Bool.noConfusion (h1.symm.trans h2)
  | handoffAct a r fb =>
    by_cases hc : wfGet s.workflow "compliance_approved" = true
    · exact hc
    · have hcf : wfGet s.workflow "compliance_approved" = false := by
        cases hcv : wfGet s.workflow "compliance_approved"
        · rfl
        · exact absurd hcv hc
      simp only [stepApp, handoffTab, hcf] at h2
      simp at h2
      exact Bool.noConfusion (h1.symm.trans h2)

/-- A session state with compliance approved and handoff pending, as
reached right after the Compliance approval. -/
def c3WitnessState : AppState :=
  { initialAppState with
    workflow :=
      { step := 4
        agent := "idle"
        bools :=
          [("briefing_approved", false), ("production_approved", false),
           ("compliance_approved", true), ("handoff_approved", false),
           ("analysis_complete", false)]
        messages := [] } }

/-- C3, witness: the gating theorem applied to an approve click on the
Handoff tab from a state with compliance approved and handoff still
pending. -/
theorem handoff_flag_gating_witness :
    wfGet c3WitnessState.workflow "compliance_approved" = true :=
  handoff_flag_requires_prior_compliance c3WitnessState (.handoffAct true false "")
    (by decide) (by decide)

/-- C6: the bounded-time compliance read returns the distinguished
timeout sentinel (a non-empty error dictionary, distinct from the empty
no-record dictionary) exactly when the worker needs longer than the
timeout, and returns the wrapped call result itself when the worker
finishes within the timeout. -/
theorem compliance_timeout_sentinel (brief_id : String) (d T : Nat) (o : UCOutcome) :
    (T < d →
       get_compliance_from_uc_timeout brief_id d o T =
         [("status", PV.s "error"),
          ("message", PV.s ("UC fetch timed out after " ++ toString T ++ "s"))]
       ∧ get_compliance_from_uc_timeout brief_id d o T ≠ ([] : PDict))
    ∧ (d ≤ T →
       get_compliance_from_uc_timeout brief_id d o T = get_compliance_from_uc brief_id o) := by
  constructor
  · intro h
    constructor
    · simp [get_compliance_from_uc_timeout, run_with_timeout, h, pyGet, dictGet,
        PV.truthy, SV.truthy]
    · simp [get_compliance_from_uc_timeout, run_with_timeout, h, pyGet, dictGet,
        PV.truthy, SV.truthy, PDict]
  · intro h
    have hng : ¬ (T < d) := not_lt.mpr h
    cases o with
    | noConn =>
      simp [get_compliance_from_uc_timeout, run_with_timeout, hng,
        get_compliance_from_uc, pyGet, dictGet, PV.truthy, SV.truthy, PV.n]
    | raised =>
      simp [get_compliance_from_uc_timeout, run_with_timeout, hng,
        get_compliance_from_uc, pyGet, dictGet, PV.truthy, SV.truthy, PV.n]
    | noRow =>
      simp [get_compliance_from_uc_timeout, run_with_timeout, hng,
        get_compliance_from_uc, pyGet, dictGet, PV.truthy, SV.truthy, PV.n]
    | row r =>
      simp [get_compliance_from_uc_timeout, run_with_timeout, hng,
        get_compliance_from_uc, pyGet, dictGet, PV.truthy, SV.truthy, PV.n]

/-- C6, witness: at timeout 8, a 9-second worker yields the sentinel
and a 2-second worker yields the wrapped result. -/
theorem compliance_timeout_sentinel_witness :
    get_compliance_from_uc_timeout "brief_001" 9 UCOutcome.noRow 8 =
      [("status", PV.s "error"),
       ("message", PV.s ("UC fetch timed out after " ++ toString 8 ++ "s"))]
    ∧ get_compliance_from_uc_timeout "brief_001" 9 UCOutcome.noRow 8 ≠ ([] : PDict)
    ∧ get_compliance_from_uc_timeout "brief_001" 2 UCOutcome.noRow 8 =
      get_compliance_from_uc "brief_001" UCOutcome.noRow :=
  ⟨((compliance_timeout_sentinel "brief_001" 9 8 .noRow).1 (by decide)).1,
   ((compliance_timeout_sentinel "brief_001" 9 8 .noRow).1 (by decide)).2,
   (compliance_timeout_sentinel "brief_001" 2 8 .noRow).2 (by decide)⟩

/-- An advanced prior session state in which brief_001 is already the
selected campaign, compliance has been approved and the step is 4. -/
def c8PriorState : AppState :=
  { campaign_id := some "brief_001"
    workflow :=
      { step := 4
        agent := "idle"
        bools :=
          [("briefing_approved", false), ("production_approved", false),
           ("compliance_approved", true), ("handoff_approved", false),
           ("analysis_complete", false)]
        messages := [] }
    approval_feedback := [("Compliance", "looks good")]
    campaign_meta := some ("brief_001", "Women\x27s Health Awareness",
      "Women\x27s Health Awareness - Q1 Acquisition")
    campaign_brief := DEFAULT_BRIEF
    workflow_started := true
    prod_selected_campaign_prev := some "brief_001"
    prod_generated := true
    prod_prompt_generated := true
    prod_seed_found := true
    prod_generating := false
    prod_prompt_text := Option.none
    generated_image_path :=
      some "images/generated/brief_001_Women\x27s_Health_Awareness_-_Q1_Acquisition.png" }

/-- C8, counterexample: when the selected campaign is already the
current one, the campaign-switch reset is skipped, so selecting it
twice from an advanced prior state leaves step at 4 instead of
yielding the reset state with step 0 demanded by the claim. -/
theorem select_campaign_not_always_reset :
    selectCampaign camp_brief_001 c8PriorState = c8PriorState
    ∧ selectCampaign camp_brief_001 (selectCampaign camp_brief_001 c8PriorState)
        = c8PriorState
    ∧ c8PriorState.workflow.step = 4
    ∧ wfGet c8PriorState.workflow "compliance_approved" = true := by
  refine ⟨by decide, by decide, rfl, by decide⟩

/-- C8, amended: selecting a campaign twice in a row yields identical
states after each call, and that state is the full reset (step 0, all
approval flags false, analysis_complete false, messages empty, brief
identical both times) whenever the campaign differs from the currently
selected one; re-selecting the already-current campaign leaves the
state unchanged. -/
theorem select_campaign_idempotent_repeat (c : Campaign) (s : AppState) :
    selectCampaign c (selectCampaign c s) = selectCampaign c s
    ∧ (s.prod_selected_campaign_prev ≠ some c.brief_id →
        (selectCampaign c s).workflow = initWorkflow
        ∧ (selectCampaign c s).workflow.step = 0
        ∧ wfGet (selectCampaign c s).workflow "briefing_approved" = false
        ∧ wfGet (selectCampaign c s).workflow "production_approved" = false
        ∧ wfGet (selectCampaign c s).workflow "compliance_approved" = false
        ∧ wfGet (selectCampaign c s).workflow "handoff_approved" = false
        ∧ wfGet (selectCampaign c s).workflow "analysis_complete" = false
        ∧ (selectCampaign c s).workflow.messages = [])
    ∧ (selectCampaign c (selectCampaign c s)).campaign_brief
        = (selectCampaign c s).campaign_brief
    ∧ (s.prod_selected_campaign_prev = some c.brief_id → selectCampaign c s = s) := by
  by_cases hg : s.prod_selected_campaign_prev = some c.brief_id
  · refine ⟨by simp [selectCampaign, hg], fun h => absurd hg h,
      by simp [selectCampaign, hg], fun _ => by simp [selectCampaign, hg]⟩
  · refine ⟨?_, fun _ => ?_, ?_, fun h => absurd h hg⟩
    · simp [selectCampaign, hg]
    · simp [selectCampaign, hg, wfGet, initWorkflow, dictGet]
    · simp [selectCampaign, hg]

/-- C8, witness: the amended theorem applied to a fresh selection of
brief_002 from the initial state. -/
theorem select_campaign_idempotent_witness :
    (selectCampaign camp_brief_002 initialAppState).workflow.step = 0
    ∧ selectCampaign camp_brief_002 (selectCampaign camp_brief_002 initialAppState)
        = selectCampaign camp_brief_002 initialAppState :=
  ⟨((select_campaign_idempotent_repeat camp_brief_002 initialAppState).2.1
      (by decide)).2.1,
   (select_campaign_idempotent_repeat camp_brief_002 initialAppState).1⟩

/-- C9: for every brief and defaults dictionary and every brief field,
a missing or empty input value is replaced by the corresponding
default, and the resulting field is not None whenever the
corresponding default is not None. -/
theorem normalize_brief_default_fallback (brief defaults : PDict) (k : String)
    (hk : k ∈ (["type", "audience", "budget", "timeline", "brief"] : List String)) :
    ((pyGet brief k = PV.n ∨ pyGet brief k = PV.s "") →
       pyGet (normalize_brief brief defaults) k = pyGet defaults k)
    ∧ (pyGet defaults k ≠ PV.n → pyGet (normalize_brief brief defaults) k ≠ PV.n) := by
  have hval : ∀ (a b : PV),
      ((a = PV.n ∨ a = PV.s "") → pyOr a b = b) ∧ (b ≠ PV.n → pyOr a b ≠ PV.n) := by
    intro a b
    constructor
    · rintro (rfl | rfl) <;> simp [pyOr, PV.truthy, SV.truthy, PV.n, PV.s]
    · exact pyOr_ne_none a b
  have hbud : ∀ (a b : PV),
      ((a = PV.n ∨ a = PV.s "") → (if budgetEmpty a then b else a) = b)
      ∧ (b ≠ PV.n → (if budgetEmpty a then b else a) ≠ PV.n) := by
    intro a b
    constructor
    · rintro (rfl | rfl) <;> simp [budgetEmpty, PV.n, PV.s]
    · intro hb
      by_cases hbe : budgetEmpty a = true
      · simpa [hbe] using hb
      · simp only [hbe, if_false, Bool.false_eq_true, ite_false]
        intro hEq
        rw [hEq] at hbe
        exact hbe rfl
  simp only [List.mem_cons, List.not_mem_nil, or_false] at hk
  rcases hk with rfl | rfl | rfl | rfl | rfl
  · have hrw : pyGet (normalize_brief brief defaults) "type"
        = pyOr (pyGet brief "type") (pyGet defaults "type") := by
      simp [normalize_brief, pyGet, dictGet]
    rw [hrw]
    exact hval _ _
  · have hrw : pyGet (normalize_brief brief defaults) "audience"
        = pyOr (pyGet brief "audience") (pyGet defaults "audience") := by
      simp [normalize_brief, pyGet, dictGet]
    rw [hrw]
    exact hval _ _
  · have hrw : pyGet (normalize_brief brief defaults) "budget"
        = if budgetEmpty (pyGet brief "budget") then pyGet defaults "budget"
          else pyGet brief "budget" := by
      simp [normalize_brief, pyGet, dictGet]
    rw [hrw]
    exact hbud _ _
  · have hrw : pyGet (normalize_brief brief defaults) "timeline"
        = pyOr (pyGet brief "timeline") (pyGet defaults "timeline") := by
      simp [normalize_brief, pyGet, dictGet]
    rw [hrw]
    exact hval _ _
  · have hrw : pyGet (normalize_brief brief defaults) "brief"
        = pyOr (pyGet brief "brief") (pyGet defaults "brief") := by
      simp [normalize_brief, pyGet, dictGet]
    rw [hrw]
    exact hval _ _

/-- C9, witness: an empty type field falls back to the default type and
the result is not None. -/
theorem normalize_brief_default_fallback_witness :
    pyGet (normalize_brief ([("type", PV.s "")] : PDict) DEFAULT_BRIEF) "type"
      = pyGet DEFAULT_BRIEF "type"
    ∧ pyGet (normalize_brief ([("type", PV.s "")] : PDict) DEFAULT_BRIEF) "type" ≠ PV.n :=
  ⟨(normalize_brief_default_fallback ([("type", PV.s "")] : PDict) DEFAULT_BRIEF "type"
      (by decide)).1 (Or.inr (by decide)),
   (normalize_brief_default_fallback ([("type", PV.s "")] : PDict) DEFAULT_BRIEF "type"
      (by decide)).2 (by decide)⟩
